import Mathlib

/-!
Verification of the Spotify Voice Control repository against its
natural-language specification.

The development shallowly embeds the relevant parts of
`SpotifyVoiceControl.py` (the authoritative, most complete program variant,
which the claims cite):

* the pure transcript normalizer `parse_voice_command` (lines 89-123),
  together with the Python string primitives it uses (`strip`, `lower`,
  `startswith`, slicing, `strip(',.')`, `find`, `split`, `capitalize`,
  `join`), modelled character-exactly for ASCII input;
* the session-controller state machine: the module globals
  (`recording_process`, `volume_monitoring`) plus the observable effect
  logs (MQTT status topic `voice/status`, query topic `voice/spotify`,
  number of capture processes launched, number of `transcribe_audio`
  entries and of whisper invocations, existence of `songrequest.wav`),
  and the operations `start_recording` (165-193),
  `stop_recording_and_transcribe` (196-213), `transcribe_audio` (216-254),
  `on_mqtt_message` (267-294) and the `q` branch of the main loop
  (490-519);
* the volume-monitor tick arithmetic (`int(adc_value * 100)`,
  `int(adc_value * 91) + 9`, lines 338-347), with the ADC sample as a
  rational number and Python `int()` as truncation toward zero;
* `subprocess.Popen.wait` viewed as a function of the process's exit
  behaviour, to examine the unbounded wait on line 207;
* a two-thread interleaving semantics for `start_recording`, splitting the
  unsynchronized check-then-act on the global `recording_process` at its
  only preemption-relevant point (the liveness check on line 169 versus
  the publish/launch/assign body on lines 173-189), to examine the race
  between the local command loop and the MQTT listener thread.

External collaborators (MQTT broker, `arecord`, whisper) are modelled as
always-reachable effect sinks / explicit outcome parameters, as the spec
treats them as opaque.
-/

namespace SVC

/-! ## Python string primitives (ASCII model) -/

/-- Python `str.strip()` whitespace set (ASCII part). -/
def isPySpace (c : Char) : Bool :=
  c = ' ' || c = '\t' || c = '\n' || c = '\x0d' || c = '\x0b' || c = '\x0c'

/-- Strip characters satisfying `p` from both ends of a character list. -/
def stripWhile (p : Char → Bool) (cs : List Char) : List Char :=
  ((cs.dropWhile p).reverse.dropWhile p).reverse

/-- Python `s.strip()`. -/
def pyStrip (s : String) : String := ⟨stripWhile isPySpace s.data⟩

/-- Python `s.lower()` (ASCII). -/
def pyLower (s : String) : String := ⟨s.data.map Char.toLower⟩

/-- Python `s.strip(',.')` — strip commas and periods from both ends
(line 106 of `SpotifyVoiceControl.py`). -/
def pyStripPunct (s : String) : String :=
  ⟨stripWhile (fun c => c = ',' || c = '.') s.data⟩

/-- Python `s.startswith(pre)`. -/
def pyStartsWith (pre s : String) : Bool := pre.data.isPrefixOf s.data

/-- Python slice `s[n:]`. -/
def pyDrop (s : String) (n : Nat) : String := ⟨s.data.drop n⟩

/-- Python slice `s[:n]`. -/
def pyTake (s : String) (n : Nat) : String := ⟨s.data.take n⟩

/-- Helper for Python `s.find(sub)`: first index `≥ i` at which `needle`
occurs in the remaining haystack, `none` when absent (Python returns -1). -/
def findSubFrom (needle : List Char) : Nat → List Char → Option Nat
  | i, [] => if needle.isPrefixOf ([] : List Char) then some i else none
  | i, c :: cs =>
      if needle.isPrefixOf (c :: cs) then some i else findSubFrom needle (i + 1) cs

/-- Python `s.find(sub)` (as `Option Nat` instead of `-1`). -/
def pyFind (s sub : String) : Option Nat := findSubFrom sub.data 0 s.data

/-- Accumulator core of Python `s.split()`: split on whitespace runs,
discarding empty fields. -/
def splitWsAux : List Char → List Char → List (List Char)
  | acc, [] => if acc.isEmpty then [] else [acc.reverse]
  | acc, c :: cs =>
      if isPySpace c then
        if acc.isEmpty then splitWsAux [] cs else acc.reverse :: splitWsAux [] cs
      else
        splitWsAux (c :: acc) cs

/-- Python `s.split()` (no argument: split on whitespace runs). -/
def pySplit (s : String) : List String := (splitWsAux [] s.data).map List.asString

/-- List core of Python `str.capitalize()`: first character title-cased
(= upper-cased for ASCII), all remaining characters lower-cased. -/
def capitalizeList : List Char → List Char
  | [] => []
  | c :: cs => c.toUpper :: cs.map Char.toLower

/-- Python `s.capitalize()`. -/
def pyCapitalize (s : String) : String := ⟨capitalizeList s.data⟩

/-- Python `' '.join(xs)`. -/
def joinSpace : List String → String
  | [] => ""
  | [w] => w
  | w :: ws => w ++ " " ++ joinSpace ws

/-- The title-casing step of the normalizer:
`' '.join(word.capitalize() for word in t.split())`
(lines 115, 116 and 121 of `SpotifyVoiceControl.py`). -/
def titleJoin (t : String) : String := joinSpace ((pySplit t).map pyCapitalize)

/-! ## The transcript normalizer -/

/-- `parse_voice_command` of `SpotifyVoiceControl.py` (lines 89-123),
translated clause by clause:
strip; drop a leading `"play, "` or `"play "` (matched on the lowered
text) and re-strip; strip leading/trailing commas and periods; locate
`" by "` case-insensitively; on a hit, split into song and artist, strip
each, title-case each token of each with `str.capitalize`, and join with
a single space; otherwise title-case the whole remainder. -/
def parse_voice_command (transcript : String) : String :=
  let text0 := pyStrip transcript
  let textLower := pyLower text0
  let text1 :=
    if pyStartsWith "play, " textLower then pyStrip (pyDrop text0 6)
    else if pyStartsWith "play " textLower then pyStrip (pyDrop text0 5)
    else text0
  let text := pyStripPunct text1
  match pyFind (pyLower text) " by " with
  | some byIndex =>
      let songName := pyStrip (pyTake text byIndex)
      let artistName := pyStrip (pyDrop text (byIndex + 4))
      titleJoin songName ++ " " ++ titleJoin artistName
  | none => titleJoin text

/-- ASCII apostrophe, used to spell the reference inputs. -/
def apos : String := String.singleton (Char.ofNat 39)

/-- Reference input: `play, don't stop believin' by journey`. -/
def believinInput : String :=
  "play, don" ++ apos ++ "t stop believin" ++ apos ++ " by journey"

/-- Reference output: `Don't Stop Believin' Journey`. -/
def believinOutput : String :=
  "Don" ++ apos ++ "t Stop Believin" ++ apos ++ " Journey"

/-! ## Session-controller state

The module globals of `SpotifyVoiceControl.py` together with the
observable effects of its operations.  MQTT publishes are modelled as
append-only per-topic logs (broker reachable, as the spec treats the bus
as an opaque collaborator); the file system is the single flag
"does `songrequest.wav` exist", an environment fact the recording
operations do not themselves model.  `launched` counts `subprocess.Popen`
calls for the capture command and doubles as the next process identity;
`whisperInvocations` counts `subprocess.check_output` calls on the
whisper binary; `transcribeAudioCalls` counts entries into
`transcribe_audio`. -/

/-- A handle to a spawned capture process, as `Popen` exposes it to the
controller: an identity plus the result of the non-blocking `poll()`
(`alive = true` iff `poll() is None`). -/
structure Proc where
  pid : Nat
  alive : Bool
deriving DecidableEq

/-- The controller's shared mutable state plus observable effect logs. -/
structure SysState where
  recording_process : Option Proc
  volume_monitoring : Bool
  statusLog : List String
  queryLog : List String
  launched : Nat
  whisperInvocations : Nat
  transcribeAudioCalls : Nat
  audioFileExists : Bool
deriving DecidableEq

/-- The liveness test the code repeats on lines 169, 200 and 277:
`recording_process and recording_process.poll() is None`. -/
def isLiveRecording (s : SysState) : Bool :=
  match s.recording_process with
  | none => false
  | some p => p.alive

/-- `start_recording` (lines 165-193).  If a live process exists: print
and return `False`, touching nothing.  Otherwise: publish `"Recording"`
to the status topic, publish `""` to the query topic (clear search),
then `Popen` the capture command; `launchOk` models whether `Popen`
raises.  On success the new handle is stored and `True` returned; on
failure the old value of the global is retained, an `"error"` status is
published and `False` returned. -/
def start_recording (launchOk : Bool) (s : SysState) : Bool × SysState :=
  if isLiveRecording s = true then
    (false, s)
  else
    let s1 := { s with statusLog := s.statusLog ++ ["Recording"],
                       queryLog := s.queryLog ++ [""] }
    if launchOk then
      (true, { s1 with recording_process := some ⟨s1.launched, true⟩,
                       launched := s1.launched + 1 })
    else
      (false, { s1 with statusLog := s1.statusLog ++ ["error"] })

/-- `transcribe_audio` (lines 216-254).  `whisperResult` is the outcome
of the external whisper invocation: `some raw` for a successful
`check_output` returning `raw`, `none` when it raises.  When the audio
file is missing the function publishes `"error"` and returns `False`
without invoking whisper.  Otherwise it publishes
`"Processing Request"`, invokes whisper, and on success publishes the
normalized query (`send_to_nodered` applies `parse_voice_command` to the
stripped transcript) followed by an empty status; on failure it
publishes `"error"`. -/
def transcribe_audio (whisperResult : Option String) (s : SysState) : Bool × SysState :=
  let s0 := { s with transcribeAudioCalls := s.transcribeAudioCalls + 1 }
  if s0.audioFileExists = false then
    (false, { s0 with statusLog := s0.statusLog ++ ["error"] })
  else
    let s1 := { s0 with statusLog := s0.statusLog ++ ["Processing Request"],
                        whisperInvocations := s0.whisperInvocations + 1 }
    match whisperResult with
    | some raw =>
        (true, { s1 with queryLog := s1.queryLog ++ [parse_voice_command (pyStrip raw)],
                         statusLog := s1.statusLog ++ [""] })
    | none =>
        (false, { s1 with statusLog := s1.statusLog ++ ["error"] })

/-- `stop_recording_and_transcribe` (lines 196-213).  With no live
process: print and return `False`, touching nothing.  Otherwise:
terminate and wait for the process (the wait itself is examined
separately by `popen_wait`; this state-level transition is its behaviour
when the process honours the signal), clear the global, call
`transcribe_audio` discarding its result, and return `True`. -/
def stop_recording_and_transcribe (whisperResult : Option String) (s : SysState) :
    Bool × SysState :=
  if isLiveRecording s = false then
    (false, s)
  else
    let s1 := { s with recording_process := none }
    (true, (transcribe_audio whisperResult s1).2)

/-- Payload decoding on line 271: `msg.payload.decode().strip().lower()`. -/
def decode_command (payload : String) : String := pyLower (pyStrip payload)

/-- Dispatch body of `on_mqtt_message` (lines 274-294), acting on an
already decoded command string. -/
def handle_command (launchOk : Bool) (whisperResult : Option String)
    (cmd : String) (s : SysState) : SysState :=
  if cmd = "button_pressed" then
    if isLiveRecording s = true then (stop_recording_and_transcribe whisperResult s).2
    else (start_recording launchOk s).2
  else if cmd = "true" then (start_recording launchOk s).2
  else if cmd = "false" then (stop_recording_and_transcribe whisperResult s).2
  else if cmd = "record" ∨ cmd = "start" then (start_recording launchOk s).2
  else if cmd = "stop" ∨ cmd = "transcribe" then (stop_recording_and_transcribe whisperResult s).2
  else s

/-- `on_mqtt_message` (lines 267-294): decode the payload, dispatch. -/
def on_mqtt_message (launchOk : Bool) (whisperResult : Option String)
    (payload : String) (s : SysState) : SysState :=
  handle_command launchOk whisperResult (decode_command payload) s

/-- The `q` branch of the main loop (lines 490-519): publish `""` to the
status topic and `""` to the query topic, set `volume_monitoring` to
`False` (joining the monitor thread) if it was set, `pkill spotifyd`,
and break.  The branch never touches `recording_process`. -/
def quit_branch (s : SysState) : SysState :=
  { s with statusLog := s.statusLog ++ [""],
           queryLog := s.queryLog ++ [""],
           volume_monitoring := false }

/-! ## Process wait (line 207) -/

/-- Outcome of a `Popen.wait` call that returns. -/
inductive WaitOutcome
  | exited (after : Nat)
  | timedOut
deriving DecidableEq

/-- `Popen.wait(timeout)` as a function of the process's exit behaviour:
`exitsAt = some t` means the terminated process exits `t` time units
after the signal, `none` that it never exits (e.g. ignores SIGTERM and
blocks).  With `timeout = none` (Python `wait()` with no argument) the
call returns only when the process exits — the result `none` models a
call that never returns. -/
def popen_wait (timeout : Option Nat) (exitsAt : Option Nat) : Option WaitOutcome :=
  match exitsAt, timeout with
  | some t, none => some (WaitOutcome.exited t)
  | none, none => none
  | some t, some d => if t ≤ d then some (WaitOutcome.exited t) else some WaitOutcome.timedOut
  | none, some _ => some WaitOutcome.timedOut

/-- Line 207 of `stop_recording_and_transcribe`:
`recording_process.wait()` — no timeout argument is passed. -/
def stop_recording_wait (exitsAt : Option Nat) : Option WaitOutcome :=
  popen_wait none exitsAt

/-! ## Two-thread interleaving of start_recording

The local command loop and the MQTT listener run `start_recording` on
the shared global `recording_process` with no lock.  The function is
split at its only race-relevant boundary: the liveness check (line 169)
versus everything after it (status publish, query clear, `Popen`,
assignment — lines 173-189), between which the interpreter can switch
threads (both halves perform blocking I/O, which releases the GIL).
The successful-launch body is used (`launchOk = true`). -/

/-- Progress of one thread through `start_recording`. -/
inductive ThreadPhase
  | ready
  | passedCheck
  | done (started : Bool)
deriving DecidableEq

/-- One atomic step of a thread inside `start_recording`. -/
def startRecordingStep (ph : ThreadPhase) (s : SysState) : ThreadPhase × SysState :=
  match ph with
  | ThreadPhase.ready =>
      if isLiveRecording s = true then (ThreadPhase.done false, s)
      else (ThreadPhase.passedCheck, s)
  | ThreadPhase.passedCheck =>
      let s1 := { s with statusLog := s.statusLog ++ ["Recording"],
                         queryLog := s.queryLog ++ [""] }
      (ThreadPhase.done true,
       { s1 with recording_process := some ⟨s1.launched, true⟩,
                 launched := s1.launched + 1 })
  | ThreadPhase.done b => (ThreadPhase.done b, s)

/-- Running both steps of one thread with no interference. -/
def run_one_thread (s : SysState) : ThreadPhase × SysState :=
  let r := startRecordingStep ThreadPhase.ready s
  startRecordingStep r.1 r.2

/-- Two threads sharing the session state. -/
structure RaceState where
  sys : SysState
  t1 : ThreadPhase
  t2 : ThreadPhase
deriving DecidableEq

/-- Scheduler step: `false` lets thread 1 take its next atomic step,
`true` lets thread 2. -/
def raceStep (r : RaceState) (tid : Bool) : RaceState :=
  if tid then
    let p := startRecordingStep r.t2 r.sys
    { r with t2 := p.1, sys := p.2 }
  else
    let p := startRecordingStep r.t1 r.sys
    { r with t1 := p.1, sys := p.2 }

/-- Run a schedule (a list of thread choices). -/
def runRace (r : RaceState) (sched : List Bool) : RaceState :=
  sched.foldl raceStep r

/-- The idle startup state: no recording, monitor off, nothing published,
no process launched, no audio artifact yet. -/
def sys0 : SysState :=
  { recording_process := none, volume_monitoring := false, statusLog := [],
    queryLog := [], launched := 0, whisperInvocations := 0,
    transcribeAudioCalls := 0, audioFileExists := false }

/-- A state with a live capture process (pid 0), volume monitor running,
audio artifact present. -/
def sysLive : SysState :=
  { recording_process := some ⟨0, true⟩, volume_monitoring := true,
    statusLog := [], queryLog := [], launched := 1, whisperInvocations := 0,
    transcribeAudioCalls := 0, audioFileExists := true }

/-! ## Volume-monitor tick arithmetic (lines 338-347)

`adc.value` is a normalized sample in `[0,1]`, modelled as a rational;
the two boundary samples `0.0` and `1.0` and the claim's probe `0.5` are
exactly representable in binary floating point and their products by 91
and 100 are exact, so the rational model agrees with the Python floats
on every value the claims mention.  Python `int()` truncates toward
zero. -/

/-- Python `int()` on a rational: truncation toward zero. -/
def pyInt (q : ℚ) : ℤ := if 0 ≤ q then ⌊q⌋ else ⌈q⌉

/-- Line 341: `display_volume = int(adc_value * 100)`. -/
def display_volume (adc_value : ℚ) : ℤ := pyInt (adc_value * 100)

/-- Line 344: `actual_volume = int(adc_value * 91) + 9`. -/
def actual_volume (adc_value : ℚ) : ℤ := pyInt (adc_value * 91) + 9

end SVC

namespace SVC

/-! ## Shared behavioural lemmas -/

/-- With a live process, `start_recording` is a full no-op returning
`False` (the line 169-171 branch). -/
theorem start_recording_live {launchOk : Bool} {s : SysState}
    (h : isLiveRecording s = true) :
    start_recording launchOk s = (false, s) := by
  simp [start_recording, h]

/-- With no live process and a successful launch, `start_recording`
returns `True`, leaves a live handle, and has spawned one new process. -/
theorem start_recording_launch {s : SysState} (h : isLiveRecording s = false) :
    (start_recording true s).1 = true ∧
    isLiveRecording (start_recording true s).2 = true ∧
    (start_recording true s).2.launched = s.launched + 1 := by
  simp only [start_recording, h]
  simp [isLiveRecording]

/-- With no live process, `stop_recording_and_transcribe` is a full
no-op returning `False` (the line 200-202 branch). -/
theorem stop_not_live {whisperResult : Option String} {s : SysState}
    (h : isLiveRecording s = false) :
    stop_recording_and_transcribe whisperResult s = (false, s) := by
  simp [stop_recording_and_transcribe, h]

/-- With a live process, `stop_recording_and_transcribe` clears the
handle and enters `transcribe_audio` exactly once. -/
theorem stop_live {whisperResult : Option String} {s : SysState}
    (h : isLiveRecording s = true) :
    (stop_recording_and_transcribe whisperResult s).1 = true ∧
    isLiveRecording (stop_recording_and_transcribe whisperResult s).2 = false ∧
    (stop_recording_and_transcribe whisperResult s).2.transcribeAudioCalls
      = s.transcribeAudioCalls + 1 := by
  cases hA : s.audioFileExists <;> cases whisperResult <;>
    (simp only [stop_recording_and_transcribe, transcribe_audio, h, hA]
     simp [isLiveRecording])

/-- Missing audio artifact: `transcribe_audio` publishes `"error"` and
fails without invoking whisper. -/
theorem transcribe_audio_no_artifact {whisperResult : Option String} {s : SysState}
    (h : s.audioFileExists = false) :
    transcribe_audio whisperResult s =
      (false, { s with transcribeAudioCalls := s.transcribeAudioCalls + 1,
                       statusLog := s.statusLog ++ ["error"] }) := by
  simp [transcribe_audio, h]

/-- Dispatch of a decoded `"button_pressed"` payload. -/
theorem handle_command_toggle (launchOk : Bool) (whisperResult : Option String)
    (s : SysState) :
    handle_command launchOk whisperResult "button_pressed" s =
      (if isLiveRecording s = true then (stop_recording_and_transcribe whisperResult s).2
       else (start_recording launchOk s).2) := rfl

/-- Dispatch of decoded `"true"`, `"start"`, `"record"` payloads. -/
theorem handle_command_start (launchOk : Bool) (whisperResult : Option String)
    (s : SysState) :
    handle_command launchOk whisperResult "true" s = (start_recording launchOk s).2 ∧
    handle_command launchOk whisperResult "start" s = (start_recording launchOk s).2 ∧
    handle_command launchOk whisperResult "record" s = (start_recording launchOk s).2 := by
  refine ⟨rfl, ?_, ?_⟩ <;> simp [handle_command]

/-- Dispatch of decoded `"false"`, `"stop"`, `"transcribe"` payloads. -/
theorem handle_command_stop (launchOk : Bool) (whisperResult : Option String)
    (s : SysState) :
    handle_command launchOk whisperResult "false" s
      = (stop_recording_and_transcribe whisperResult s).2 ∧
    handle_command launchOk whisperResult "stop" s
      = (stop_recording_and_transcribe whisperResult s).2 ∧
    handle_command launchOk whisperResult "transcribe" s
      = (stop_recording_and_transcribe whisperResult s).2 := by
  refine ⟨rfl, ?_, ?_⟩ <;> simp [handle_command]

/-- Any other decoded payload leaves the state untouched (line 293-294). -/
theorem handle_command_unknown {cmd : String} (launchOk : Bool)
    (whisperResult : Option String) (s : SysState)
    (h : cmd ∉ (["button_pressed", "true", "start", "record",
                 "false", "stop", "transcribe"] : List String)) :
    handle_command launchOk whisperResult cmd s = s := by
  simp only [List.mem_cons, List.not_mem_nil, or_false, not_or] at h
  obtain ⟨h1, h2, h3, h4, h5, h6, h7⟩ := h
  simp [handle_command, h1, h2, h3, h4, h5, h6, h7]

end SVC

namespace SVC

/-! ## Claim theorems -/

/-- Claim C2: whenever a recording handle is present and its process is
alive, a sequential `Record()` call (`start_recording`) returns the
already-recording result (`False`) and changes nothing — no new process,
no status event, handle untouched; and calling it twice in a row from a
non-recording state launches exactly one process, the second call being
the no-op. -/
theorem record_idempotent (launchOk launchOk2 : Bool) (s s0 : SysState)
    (h : isLiveRecording s = true) (h0 : isLiveRecording s0 = false) :
    start_recording launchOk s = (false, s) ∧
    (start_recording true s0).1 = true ∧
    isLiveRecording (start_recording true s0).2 = true ∧
    (start_recording true s0).2.launched = s0.launched + 1 ∧
    start_recording launchOk2 (start_recording true s0).2
      = (false, (start_recording true s0).2) := by
  obtain ⟨r1, r2, r3⟩ := start_recording_launch h0
  exact ⟨start_recording_live h, r1, r2, r3, start_recording_live r2⟩

/-- Witness for C2: in the concrete live state `sysLive` the call is a
no-op, and from the idle state `sys0` the double call spawns exactly one
process. -/
theorem record_idempotent_witness :
    isLiveRecording sysLive = true ∧ isLiveRecording sys0 = false ∧
    start_recording true sysLive = (false, sysLive) ∧
    (start_recording true sys0).2.launched = sys0.launched + 1 ∧
    start_recording true (start_recording true sys0).2
      = (false, (start_recording true sys0).2) := by
  have h := record_idempotent true true sysLive sys0 (by decide) (by decide)
  exact ⟨by decide, by decide, h.1, h.2.2.2.1, h.2.2.2.2⟩

/-- Claim C3: with no live recording handle (none stored, or stored but
its process already exited), `stop_recording_and_transcribe` returns the
no-active-recording result (`False`) and leaves every component of the
state unchanged; in particular the transcription collaborator is not
invoked and `transcribe_audio` is not even entered. -/
theorem stop_without_recording_noop (whisperResult : Option String) (s : SysState)
    (h : isLiveRecording s = false) :
    stop_recording_and_transcribe whisperResult s = (false, s) ∧
    (stop_recording_and_transcribe whisperResult s).2.whisperInvocations
      = s.whisperInvocations ∧
    (stop_recording_and_transcribe whisperResult s).2.transcribeAudioCalls
      = s.transcribeAudioCalls := by
  rw [stop_not_live h]
  exact ⟨rfl, rfl, rfl⟩

/-- Witness for C3: the idle startup state. -/
theorem stop_without_recording_noop_witness :
    isLiveRecording sys0 = false ∧
    stop_recording_and_transcribe (some "play x by y") sys0 = (false, sys0) :=
  ⟨by decide, (stop_without_recording_noop (some "play x by y") sys0 (by decide)).1⟩

/-- Claim C4: the transcript normalizer maps the four reference inputs
to the specified outputs: `Play Thunderstruck by AC/DC` to
`Thunderstruck Ac/dc`; `play, don't stop believin' by journey` to
`Don't Stop Believin' Journey`; `hello world` to `Hello World`; and the
empty string to the empty string. -/
theorem normalizer_reference_examples :
    parse_voice_command "Play Thunderstruck by AC/DC" = "Thunderstruck Ac/dc" ∧
    parse_voice_command believinInput = believinOutput ∧
    parse_voice_command "hello world" = "Hello World" ∧
    parse_voice_command "" = "" := by
  refine ⟨by decide, by decide, by decide, by decide⟩

/-- Counterexample to claim C5: the title-casing step is Python
`str.capitalize`, which lower-cases everything after the first character
of a token instead of preserving it: on input `DC` the normalizer
returns `Dc`, re-casing the second character. -/
theorem titlecase_recases_tail_counterexample :
    pyCapitalize "DC" = "Dc" ∧ parse_voice_command "DC" = "Dc" ∧
    ("Dc" : String) ≠ "DC" := by
  refine ⟨by decide, by decide, by decide⟩

/-- Claim C5 as amended: for every token, the title-casing step
(`str.capitalize`) upper-cases the first character and lower-cases —
rather than preserves — every character after the first; positionally,
character `i` of the output is character `i` of the input upper-cased
when `i = 0` and lower-cased otherwise, and the length is unchanged. -/
theorem titlecase_upper_first_lowercases_rest (w : String) (i : Nat) :
    (pyCapitalize w).length = w.length ∧
    (pyCapitalize w).data[i]? =
      (if i = 0 then (w.data[i]?).map Char.toUpper
       else (w.data[i]?).map Char.toLower) := by
  constructor
  · cases hw : w.data <;>
      simp [pyCapitalize, capitalizeList, String.length, hw]
  · cases hw : w.data with
    | nil => cases i <;> simp [pyCapitalize, capitalizeList, hw]
    | cons c cs =>
        cases i <;> simp [pyCapitalize, capitalizeList, hw, List.getElem?_map]

/-- Counterexample to claim C6: at sample `0.5` the code computes
`int(0.5 * 91) + 9 = int(45.5) + 9 = 54` (Python `int()` truncates),
whereas the claimed `round(0.5 * 91) + 9` is `55`. -/
theorem volume_half_sample_counterexample :
    actual_volume (1/2) = 54 ∧ round ((1/2 : ℚ) * 91) + 9 = 55 ∧
    (54 : ℤ) ≠ 55 := by
  refine ⟨by norm_num [actual_volume, pyInt], by norm_num [round_eq], by decide⟩

/-- Claim C6 as amended: for every sample in `[0, 1]` each monitor tick
computes the applied volume as `⌊s * 91⌋ + 9` and the display value as
`⌊s * 100⌋` (truncation, not rounding); sample `0.0` yields applied `9`,
sample `1.0` yields applied `100`, and sample `0.5` yields applied `54`;
the applied volume always lies in `[9, 100]` and the display value in
`[0, 100]`. -/
theorem volume_mapping_truncation (s : ℚ) (h0 : 0 ≤ s) (h1 : s ≤ 1) :
    actual_volume s = ⌊s * 91⌋ + 9 ∧
    display_volume s = ⌊s * 100⌋ ∧
    9 ≤ actual_volume s ∧ actual_volume s ≤ 100 ∧
    0 ≤ display_volume s ∧ display_volume s ≤ 100 ∧
    actual_volume 0 = 9 ∧ actual_volume 1 = 100 ∧
    actual_volume (1/2) = 54 := by
  have e91 : (0:ℚ) ≤ s * 91 := by positivity
  have e100 : (0:ℚ) ≤ s * 100 := by positivity
  have f91 : (0:ℤ) ≤ ⌊s * 91⌋ := Int.floor_nonneg.mpr e91
  have f100 : (0:ℤ) ≤ ⌊s * 100⌋ := Int.floor_nonneg.mpr e100
  have u91 : (⌊s * 91⌋ : ℤ) ≤ 91 := by
    have hle : s * 91 ≤ (91:ℚ) := by nlinarith
    calc (⌊s * 91⌋ : ℤ) ≤ ⌊(91:ℚ)⌋ := Int.floor_le_floor hle
      _ = 91 := by norm_num
  have u100 : (⌊s * 100⌋ : ℤ) ≤ 100 := by
    have hle : s * 100 ≤ (100:ℚ) := by nlinarith
    calc (⌊s * 100⌋ : ℤ) ≤ ⌊(100:ℚ)⌋ := Int.floor_le_floor hle
      _ = 100 := by norm_num
  have ea : actual_volume s = ⌊s * 91⌋ + 9 := by simp [actual_volume, pyInt, e91]
  have ed : display_volume s = ⌊s * 100⌋ := by simp [display_volume, pyInt, e100]
  refine ⟨ea, ed, ?_, ?_, ?_, ?_, ?_, ?_, ?_⟩
  · rw [ea]; omega
  · rw [ea]; omega
  · rw [ed]; omega
  · rw [ed]; omega
  · norm_num [actual_volume, pyInt]
  · norm_num [actual_volume, pyInt]
  · norm_num [actual_volume, pyInt]

/-- Witness for the amended C6, at the concrete sample `1`. -/
theorem volume_mapping_truncation_witness :
    (0:ℚ) ≤ 1 ∧ (1:ℚ) ≤ 1 ∧
    (9 ≤ actual_volume 1 ∧ actual_volume 1 ≤ 100) := by
  have h := volume_mapping_truncation 1 zero_le_one (le_refl 1)
  exact ⟨zero_le_one, le_refl 1, h.2.2.1, h.2.2.2.1⟩

/-- Claim C7 examination: line 207 calls `recording_process.wait()` with
no timeout argument.  A stopped capture process that never exits is
waited on forever (the call never returns, result `none`), and over
processes that do exit the blocking time is unbounded: for every
proposed bound there is a process behaviour making the stop path block
longer.  This contradicts the claimed bounded wait; the specification
itself flags the unbounded wait as a defect (spec sections 4.1 and 9). -/
theorem stop_wait_unbounded :
    stop_recording_wait none = none ∧
    (∀ bound : Nat,
      stop_recording_wait (some (bound + 1)) = some (WaitOutcome.exited (bound + 1)) ∧
      bound < bound + 1) :=
  ⟨rfl, fun bound => ⟨rfl, Nat.lt_succ_self bound⟩⟩

/-- Counterexample to claim C8: from the prior state `sysLive`, whose
capture process is live, the quit branch returns with the recording
handle still present and the process still alive — `Shutdown()` does not
terminate or clear a live recording. -/
theorem quit_leaves_live_recording :
    isLiveRecording sysLive = true ∧
    (quit_branch sysLive).recording_process = some ⟨0, true⟩ ∧
    isLiveRecording (quit_branch sysLive) = true := by
  refine ⟨by decide, by decide, by decide⟩

/-- Claim C8 as amended: after the quit branch, from any prior state,
`volume_monitoring` is false and both outbound topics have received an
empty-string publish as their final message; the recording handle,
however, is left exactly as it was — a live capture process is not
terminated. -/
theorem quit_branch_effects (s : SysState) :
    (quit_branch s).volume_monitoring = false ∧
    (quit_branch s).statusLog = s.statusLog ++ [""] ∧
    (quit_branch s).queryLog = s.queryLog ++ [""] ∧
    (quit_branch s).statusLog.getLast? = some "" ∧
    (quit_branch s).queryLog.getLast? = some "" ∧
    (quit_branch s).recording_process = s.recording_process := by
  refine ⟨rfl, rfl, rfl, ?_, ?_, rfl⟩ <;> simp [quit_branch, List.getLast?_append_cons]

end SVC

namespace SVC

/-- Claim C9: for every inbound payload, after trimming and lowercasing
(`decode_command`): `button_pressed` starts a recording if none is live
and otherwise stops-and-transcribes; `true`, `start` and `record`
invoke the start operation (launching a process when none is live,
no-op otherwise); `false`, `stop` and `transcribe` invoke
stop-and-transcribe (stopping the live recording and entering the
transcription pipeline, no-op otherwise); every other payload causes no
state change. -/
theorem mqtt_dispatch (launchOk : Bool) (whisperResult : Option String)
    (payload : String) (s : SysState) :
    (decode_command payload = "button_pressed" →
      on_mqtt_message launchOk whisperResult payload s =
        (if isLiveRecording s = true
         then (stop_recording_and_transcribe whisperResult s).2
         else (start_recording launchOk s).2)) ∧
    ((decode_command payload = "true" ∨ decode_command payload = "start" ∨
        decode_command payload = "record") →
      on_mqtt_message launchOk whisperResult payload s = (start_recording launchOk s).2 ∧
      (isLiveRecording s = false → launchOk = true →
        isLiveRecording (on_mqtt_message launchOk whisperResult payload s) = true ∧
        (on_mqtt_message launchOk whisperResult payload s).launched = s.launched + 1) ∧
      (isLiveRecording s = true →
        on_mqtt_message launchOk whisperResult payload s = s)) ∧
    ((decode_command payload = "false" ∨ decode_command payload = "stop" ∨
        decode_command payload = "transcribe") →
      on_mqtt_message launchOk whisperResult payload s
        = (stop_recording_and_transcribe whisperResult s).2 ∧
      (isLiveRecording s = true →
        isLiveRecording (on_mqtt_message launchOk whisperResult payload s) = false ∧
        (on_mqtt_message launchOk whisperResult payload s).transcribeAudioCalls
          = s.transcribeAudioCalls + 1) ∧
      (isLiveRecording s = false →
        on_mqtt_message launchOk whisperResult payload s = s)) ∧
    (decode_command payload ∉
        (["button_pressed", "true", "start", "record",
          "false", "stop", "transcribe"] : List String) →
      on_mqtt_message launchOk whisperResult payload s = s) := by
  refine ⟨?_, ?_, ?_, ?_⟩
  · intro hc
    show handle_command launchOk whisperResult (decode_command payload) s = _
    rw [hc, handle_command_toggle]
  · intro hc
    obtain ⟨e1, e2, e3⟩ := handle_command_start launchOk whisperResult s
    have he : on_mqtt_message launchOk whisperResult payload s
        = (start_recording launchOk s).2 := by
      show handle_command launchOk whisperResult (decode_command payload) s = _
      rcases hc with hc | hc | hc <;> rw [hc]
      · exact e1
      · exact e2
      · exact e3
    refine ⟨he, ?_, ?_⟩
    · intro hnl hok
      subst hok
      rw [he]
      obtain ⟨_, r2, r3⟩ := start_recording_launch hnl
      exact ⟨r2, r3⟩
    · intro hl
      rw [he, start_recording_live hl]
  · intro hc
    obtain ⟨e1, e2, e3⟩ := handle_command_stop launchOk whisperResult s
    have he : on_mqtt_message launchOk whisperResult payload s
        = (stop_recording_and_transcribe whisperResult s).2 := by
      show handle_command launchOk whisperResult (decode_command payload) s = _
      rcases hc with hc | hc | hc <;> rw [hc]
      · exact e1
      · exact e2
      · exact e3
    refine ⟨he, ?_, ?_⟩
    · intro hl
      rw [he]
      obtain ⟨_, r2, r3⟩ := @stop_live whisperResult s hl
      exact ⟨r2, r3⟩
    · intro hnl
      rw [he, stop_not_live hnl]
  · intro h
    exact handle_command_unknown launchOk whisperResult s h

/-- Witness for C9: the payload `" TRUE "` (needing both trimming and
lowercasing) from the idle state starts a recording. -/
theorem mqtt_dispatch_witness :
    decode_command " TRUE " = "true" ∧ isLiveRecording sys0 = false ∧
    isLiveRecording (on_mqtt_message true none " TRUE " sys0) = true ∧
    (on_mqtt_message true none " TRUE " sys0).launched = sys0.launched + 1 := by
  have h := (mqtt_dispatch true none " TRUE " sys0).2.1 (Or.inl (by decide))
  exact ⟨by decide, by decide, (h.2.1 (by decide) rfl).1, (h.2.1 (by decide) rfl).2⟩

/-- Claim C10: whenever `transcribe_audio` is invoked (by the local `T`
command or by the stop pipeline) and the captured audio artifact does
not exist, it publishes an `"error"` status, returns `False`, and never
invokes the whisper collaborator — a precondition checked in addition
to, and independently of, the live-handle check: even when the stop
path's live-handle check passes, a missing artifact still yields the
`"error"` status and no whisper invocation. -/
theorem transcribe_missing_artifact (whisperResult : Option String) (s : SysState)
    (h : s.audioFileExists = false) :
    (transcribe_audio whisperResult s).1 = false ∧
    (transcribe_audio whisperResult s).2.statusLog = s.statusLog ++ ["error"] ∧
    (transcribe_audio whisperResult s).2.whisperInvocations = s.whisperInvocations ∧
    (transcribe_audio whisperResult s).2.queryLog = s.queryLog ∧
    (transcribe_audio whisperResult s).2.recording_process = s.recording_process ∧
    (isLiveRecording s = true →
      (stop_recording_and_transcribe whisperResult s).1 = true ∧
      (stop_recording_and_transcribe whisperResult s).2.whisperInvocations
        = s.whisperInvocations ∧
      (stop_recording_and_transcribe whisperResult s).2.statusLog
        = s.statusLog ++ ["error"]) := by
  rw [transcribe_audio_no_artifact h]
  refine ⟨rfl, rfl, rfl, rfl, rfl, ?_⟩
  intro hl
  have h1 : ({ s with recording_process := none } : SysState).audioFileExists = false := h
  have h2 : ¬(isLiveRecording s = false) := by simp [hl]
  simp only [stop_recording_and_transcribe]
  rw [if_neg h2, transcribe_audio_no_artifact h1]
  exact ⟨rfl, rfl, rfl⟩

/-- Witness for C10: a live-recording state whose audio artifact is
missing — the stop pipeline passes the live-handle check yet publishes
`"error"` and never reaches whisper. -/
theorem transcribe_missing_artifact_witness :
    ({ sysLive with audioFileExists := false } : SysState).audioFileExists = false ∧
    isLiveRecording { sysLive with audioFileExists := false } = true ∧
    (transcribe_audio none { sysLive with audioFileExists := false }).1 = false ∧
    (transcribe_audio none { sysLive with audioFileExists := false }).2.whisperInvocations
      = ({ sysLive with audioFileExists := false } : SysState).whisperInvocations ∧
    (stop_recording_and_transcribe none { sysLive with audioFileExists := false }).2.whisperInvocations
      = ({ sysLive with audioFileExists := false } : SysState).whisperInvocations := by
  have h := transcribe_missing_artifact none { sysLive with audioFileExists := false } (by decide)
  exact ⟨by decide, by decide, h.1, h.2.2.1, (h.2.2.2.2.2 (by decide)).2.1⟩

/-- Claim C1 examination: the two-step interleaving model is faithful —
running both atomic halves of `start_recording` without interference
reproduces `start_recording` exactly, and the sequential schedule
(thread 1 fully, then thread 2) from the idle state launches exactly one
process with the second caller told a recording is in progress — yet
under the interleaved schedule (both threads pass the line-169 liveness
check before either runs the launch body) TWO capture processes are
launched, both callers return started, and the `Recording` status is
published twice, refuting the claimed exactly-one-process-start
guarantee for concurrent `Record()` calls. -/
theorem record_race_two_starts :
    (∀ s : SysState,
        (run_one_thread s).1 = ThreadPhase.done (start_recording true s).1 ∧
        (run_one_thread s).2 = (start_recording true s).2) ∧
    (runRace ⟨sys0, ThreadPhase.ready, ThreadPhase.ready⟩
        [false, false, true, true]).sys.launched = 1 ∧
    (runRace ⟨sys0, ThreadPhase.ready, ThreadPhase.ready⟩
        [false, false, true, true]).t1 = ThreadPhase.done true ∧
    (runRace ⟨sys0, ThreadPhase.ready, ThreadPhase.ready⟩
        [false, false, true, true]).t2 = ThreadPhase.done false ∧
    (runRace ⟨sys0, ThreadPhase.ready, ThreadPhase.ready⟩
        [false, true, false, true]).sys.launched = 2 ∧
    (runRace ⟨sys0, ThreadPhase.ready, ThreadPhase.ready⟩
        [false, true, false, true]).t1 = ThreadPhase.done true ∧
    (runRace ⟨sys0, ThreadPhase.ready, ThreadPhase.ready⟩
        [false, true, false, true]).t2 = ThreadPhase.done true ∧
    (runRace ⟨sys0, ThreadPhase.ready, ThreadPhase.ready⟩
        [false, true, false, true]).sys.statusLog = ["Recording", "Recording"] := by
  refine ⟨?_, by decide, by decide, by decide, by decide, by decide, by decide, by decide⟩
  intro s
  cases h : isLiveRecording s
  · constructor <;> simp [run_one_thread, startRecordingStep, start_recording, h]
  · constructor <;> simp [run_one_thread, startRecordingStep, start_recording, h]

end SVC
